import Mathlib

/- Verification development for the probable-eureka creator-verification core:
   the AIAgentBatchNFT contract (zkTLS creator verification), the
   ZkTLSVerificationService, and the zktls API route. -/

namespace ProbableEureka

/-- Ethereum addresses are modelled as natural numbers. -/
abbrev Address := Nat

/-- VerificationData struct from AIAgentBatchNFT.sol: the agent verification
data carried by a zkTLS proof submission. -/
structure VerificationData where
  lighthouseHash : String
  datasetSize : Nat
  trainingEpochs : Nat
  accuracy : Nat
  timestamp : Nat
  dataHash : Nat
deriving DecidableEq

/-- NodeSignature struct from AIAgentBatchNFT.sol. The signature bytes are
modelled as a natural number. -/
structure NodeSignature where
  nodeAddress : Address
  signature : Nat
deriving DecidableEq

/-- CreatorVerification struct from AIAgentBatchNFT.sol. -/
structure CreatorVerification where
  isVerified : Bool
  verificationTime : Nat
  lighthouseHash : String
  data : VerificationData
  expiryDuration : Nat
deriving DecidableEq

/-- Preimage of the signed message hash. keccak256 of the packed encoding of
(msg.sender, lighthouseHash, datasetSize, trainingEpochs, accuracy, timestamp)
is modelled by the tuple itself, treating the hash as injective. Note the
dataHash field is NOT part of the signed message in the source. -/
structure SignedMessage where
  sender : Address
  lighthouseHash : String
  datasetSize : Nat
  trainingEpochs : Nat
  accuracy : Nat
  timestamp : Nat
deriving DecidableEq

/-- The message hash signed by trusted nodes, as built in
verifyCreatorWithZkTLS (second keccak256 in the source). -/
def messageHash (sender : Address) (vd : VerificationData) : SignedMessage :=
  { sender := sender
    lighthouseHash := vd.lighthouseHash
    datasetSize := vd.datasetSize
    trainingEpochs := vd.trainingEpochs
    accuracy := vd.accuracy
    timestamp := vd.timestamp }

/-- Contract storage relevant to creator verification. The replay map
usedVerificationHashes is keyed by the keccak preimage
(msg.sender, full VerificationData), the hash being treated as injective. -/
structure ContractState where
  creatorVerifications : Address → CreatorVerification
  trustedLighthouseNodes : Address → Bool
  usedVerificationHashes : Address × VerificationData → Bool
  trustedNodesList : List Address
  requiredNodeSignatures : Nat
  verificationExpiryDuration : Nat

/-- Revert reason of the signature-count require. -/
def msgInsufficientNodeSigs : String := "Insufficient node signatures"

/-- Revert reason of the empty-hash require. -/
def msgEmptyHash : String := "Empty lighthouse hash"

/-- Revert reason of the accuracy require. -/
def msgInvalidAccuracy : String := "Invalid accuracy"

/-- Revert reason of the zero-timestamp require. -/
def msgInvalidTimestamp : String := "Invalid timestamp"

/-- Revert reason of the future-timestamp require. -/
def msgFutureTimestamp : String := "Future timestamp"

/-- Solidity 0.8 checked-arithmetic panic raised by the expression
block.timestamp - 3600 when block.timestamp is below 3600. -/
def msgUnderflowPanic : String := "panic: arithmetic underflow"

/-- Revert reason of the stale-timestamp require. -/
def msgStaleTimestamp : String := "Stale timestamp"

/-- Revert reason of the replay-protection require. -/
def msgAlreadyUsed : String := "Verification already used"

/-- Revert reason of the trusted-node require inside the signature loop. -/
def msgUntrustedNode : String := "Untrusted node"

/-- Revert reason of the quorum require on the valid-signature count. -/
def msgInsufficientValidSigs : String := "Insufficient valid signatures"

/-- The all-zero CreatorVerification record (Solidity mapping default). -/
def emptyVerification : CreatorVerification :=
  { isVerified := false
    verificationTime := 0
    lighthouseHash := ""
    data := { lighthouseHash := ""
              datasetSize := 0
              trainingEpochs := 0
              accuracy := 0
              timestamp := 0
              dataHash := 0 }
    expiryDuration := 0 }

/-- Constructor of AIAgentBatchNFT: registers the given trusted Lighthouse
nodes, rejecting a zero address; requiredNodeSignatures defaults to 3 and
verificationExpiryDuration to 30 days. -/
def deployAIAgentBatchNFT (trustedNodes : List Address) : Option ContractState :=
  if trustedNodes.contains 0 then none
  else some
    { creatorVerifications := fun _ => emptyVerification
      trustedLighthouseNodes := fun a => trustedNodes.contains a
      usedVerificationHashes := fun _ => false
      trustedNodesList := trustedNodes
      requiredNodeSignatures := 3
      verificationExpiryDuration := 2592000 }

/-- The signature loop of verifyCreatorWithZkTLS: reverts on the first
signature whose claimed nodeAddress is not currently trusted, and counts a
signature as valid when the recovered signer equals the claimed nodeAddress.
Duplicate node addresses are counted every time they occur. -/
def countValidSignatures (s : ContractState) (recoverMsg : Nat → Address) :
    List NodeSignature → Except String Nat
  | [] => Except.ok 0
  | ns :: rest =>
    if s.trustedLighthouseNodes ns.nodeAddress = false then
      Except.error msgUntrustedNode
    else
      match countValidSignatures s recoverMsg rest with
      | Except.error e => Except.error e
      | Except.ok c =>
        Except.ok (if recoverMsg ns.signature = ns.nodeAddress then c + 1 else c)

/-- The two storage writes performed after all requires of
verifyCreatorWithZkTLS pass: mark the replay key used and store the
CreatorVerification record. -/
def commitVerification (s : ContractState) (sender : Address) (bt : Nat)
    (vd : VerificationData) : ContractState :=
  { s with
    usedVerificationHashes := fun k =>
      if k = (sender, vd) then true else s.usedVerificationHashes k
    creatorVerifications := fun a =>
      if a = sender then
        { isVerified := true
          verificationTime := bt
          lighthouseHash := vd.lighthouseHash
          data := vd
          expiryDuration := s.verificationExpiryDuration }
      else s.creatorVerifications a }

/-- verifyCreatorWithZkTLS from AIAgentBatchNFT.sol, parametric in the ECDSA
recovery oracle. Returns the revert reason or unit, together with the
post-state: a revert leaves the state exactly as received, mirroring that the
source performs its storage writes only after every require has passed.
bt is block.timestamp. -/
def verifyCreatorWithZkTLS (recover : SignedMessage → Nat → Address)
    (s : ContractState) (sender : Address) (bt : Nat)
    (vd : VerificationData) (sigs : List NodeSignature) :
    Except String Unit × ContractState :=
  if sigs.length < s.requiredNodeSignatures then
    (Except.error msgInsufficientNodeSigs, s)
  else if vd.lighthouseHash = "" then
    (Except.error msgEmptyHash, s)
  else if 10000 < vd.accuracy then
    (Except.error msgInvalidAccuracy, s)
  else if vd.timestamp = 0 then
    (Except.error msgInvalidTimestamp, s)
  else if bt + 300 < vd.timestamp then
    (Except.error msgFutureTimestamp, s)
  else if bt < 3600 then
    (Except.error msgUnderflowPanic, s)
  else if vd.timestamp < bt - 3600 then
    (Except.error msgStaleTimestamp, s)
  else if s.usedVerificationHashes (sender, vd) = true then
    (Except.error msgAlreadyUsed, s)
  else
    match countValidSignatures s (recover (messageHash sender vd)) sigs with
    | Except.error e => (Except.error e, s)
    | Except.ok validSignatures =>
      if validSignatures < s.requiredNodeSignatures then
        (Except.error msgInsufficientValidSigs, s)
      else
        (Except.ok (), commitVerification s sender bt vd)

/-- isCreatorVerified from AIAgentBatchNFT.sol. -/
def isCreatorVerified (s : ContractState) (bt : Nat) (creator : Address) : Bool :=
  (s.creatorVerifications creator).isVerified &&
    decide (bt ≤ (s.creatorVerifications creator).verificationTime +
      (s.creatorVerifications creator).expiryDuration)

/-- Return triple of getCreatorVerificationStatus. -/
structure VerificationStatus where
  isVerified : Bool
  verificationTime : Nat
  isExpired : Bool
deriving DecidableEq

/-- getCreatorVerificationStatus from AIAgentBatchNFT.sol: isExpired is the
derived predicate, computed on read. -/
def getCreatorVerificationStatus (s : ContractState) (bt : Nat)
    (creator : Address) : VerificationStatus :=
  { isVerified := (s.creatorVerifications creator).isVerified
    verificationTime := (s.creatorVerifications creator).verificationTime
    isExpired := (s.creatorVerifications creator).isVerified &&
      decide ((s.creatorVerifications creator).verificationTime +
        (s.creatorVerifications creator).expiryDuration < bt) }

/-- addTrustedNode from AIAgentBatchNFT.sol (owner-only modifier elided). -/
def addTrustedNode (s : ContractState) (node : Address) :
    Except String ContractState :=
  if node = 0 then Except.error ("Invalid node address")
  else if s.trustedLighthouseNodes node = true then
    Except.error ("Node already trusted")
  else Except.ok
    { s with
      trustedLighthouseNodes := fun a =>
        if a = node then true else s.trustedLighthouseNodes a
      trustedNodesList := s.trustedNodesList ++ [node] }

/-- removeTrustedNode from AIAgentBatchNFT.sol: the list removal swaps the
first occurrence with the last element and pops. requiredNodeSignatures is
left unchanged, so it may afterwards exceed the trusted-node count. -/
def removeTrustedNode (s : ContractState) (node : Address) :
    Except String ContractState :=
  if s.trustedLighthouseNodes node = false then
    Except.error ("Node not trusted")
  else Except.ok
    { s with
      trustedLighthouseNodes := fun a =>
        if a = node then false else s.trustedLighthouseNodes a
      trustedNodesList :=
        match s.trustedNodesList.findIdx? (fun a => a = node) with
        | none => s.trustedNodesList
        | some i =>
          (s.trustedNodesList.set i (s.trustedNodesList.getLastD 0)).dropLast }

/-- setRequiredNodeSignatures from AIAgentBatchNFT.sol. -/
def setRequiredNodeSignatures (s : ContractState) (required : Nat) :
    Except String ContractState :=
  if required = 0 ∨ s.trustedNodesList.length < required then
    Except.error ("Invalid requirement")
  else Except.ok { s with requiredNodeSignatures := required }

/-- setVerificationExpiryDuration from AIAgentBatchNFT.sol. -/
def setVerificationExpiryDuration (s : ContractState) (duration : Nat) :
    Except String ContractState :=
  if duration < 3600 then Except.error ("Duration too short")
  else if 31536000 < duration then Except.error ("Duration too long")
  else Except.ok { s with verificationExpiryDuration := duration }

/-- emergencyRemoveVerification from AIAgentBatchNFT.sol. -/
def emergencyRemoveVerification (s : ContractState) (creator : Address) :
    ContractState :=
  { s with creatorVerifications := fun a =>
      if a = creator then emptyVerification else s.creatorVerifications a }

/-- The number of signatures in sigs whose recovered signer equals the claimed
nodeAddress: the quorum count k of the spec. -/
def validSignatureCount (recover : SignedMessage → Nat → Address)
    (sender : Address) (vd : VerificationData) (sigs : List NodeSignature) : Nat :=
  (sigs.filter (fun ns =>
    recover (messageHash sender vd) ns.signature == ns.nodeAddress)).length

/- ZkTLSVerificationService (zkTLSVerificationService.ts). -/

/-- claimData of a zkTLS proof. -/
structure ClaimData where
  provider : String
  parameters : String
  owner : String
  timestampS : Nat
  context : String
  contextAddress : String
  contextMessage : String
  epoch : Nat
deriving DecidableEq

/-- One entry of the signatures sequence of a zkTLS proof. -/
structure ProofSignature where
  signature : String
  identifier : String
deriving DecidableEq

/-- One entry of the witnesses sequence of a zkTLS proof. -/
structure WitnessEntry where
  id : String
  url : String
deriving DecidableEq

/-- A zkTLS proof as received at runtime. Fields the validator probes for
presence are modelled as Option: none is a missing (undefined) field, and an
empty string or empty list is a present but empty value, matching the
JavaScript truthiness distinctions the validator relies on. -/
structure ZkTLSProof where
  identifier : String
  claimData : Option ClaimData
  signatures : Option (List ProofSignature)
  witnesses : Option (List WitnessEntry)
deriving DecidableEq

/-- validateZkTLSProof from zkTLSVerificationService.ts. Each conjunct models
the JavaScript truthiness of the corresponding source check: an empty string
is falsy, but a present array is truthy even when empty, and Array.isArray
holds for any present array. -/
def validateZkTLSProof (p : ZkTLSProof) : Bool :=
  !(p.identifier == "") &&
  p.claimData.isSome &&
  (p.signatures.isSome && p.signatures.isSome) &&
  (p.witnesses.isSome && p.witnesses.isSome) &&
  (match p.claimData with
   | some cd => !(cd.provider == "") && !(cd.owner == "")
   | none => false)

/-- AgentVerificationData from zkTLSVerificationService.ts. -/
structure AgentVerificationData where
  lighthouseHash : String
  datasetSize : Nat
  trainingEpochs : Nat
  accuracy : Nat
  modelType : String
  creator : String
  timestamp : Nat
deriving DecidableEq

/-- Models String.prototype.toLowerCase, character by character. -/
def toLowerModel (s : String) : String := String.mk (s.toList.map Char.toLower)

/-- keccak256 over a string, modelled as an injective opaque encoding (the
identity on the preimage); the service only threads the digest through. -/
def keccakModel (s : String) : String := s

/-- Models String.prototype.startsWith. -/
def strStartsWithModel (s pat : String) : Bool := pat.toList.isPrefixOf s.toList

/-- validateAgentData from zkTLSVerificationService.ts. -/
def validateAgentData (d : AgentVerificationData) (expectedCreator : String) : Bool :=
  !(d.lighthouseHash == "") &&
  decide (0 < d.datasetSize) &&
  decide (0 < d.trainingEpochs) &&
  (decide (0 ≤ d.accuracy) && decide (d.accuracy ≤ 10000)) &&
  !(d.modelType == "") &&
  decide (0 < d.timestamp) &&
  (toLowerModel d.creator == toLowerModel expectedCreator)

/-- decryptAndParseAgentData from zkTLSVerificationService.ts: the source
returns a mock record built from the cid and the current time, ignoring the
key; the catch branch is unreachable. -/
def decryptAndParseAgentData (cid : String) (_key : String) (now : Nat) :
    AgentVerificationData :=
  { lighthouseHash := cid
    datasetSize := 10000
    trainingEpochs := 100
    accuracy := 9500
    modelType := "transformer"
    creator := "0x0000000000000000000000000000000000000000"
    timestamp := now }

/-- recoverKey from zkTLSVerificationService.ts: needs at least 3 shards and
hashes their concatenation. -/
def recoverKey (shards : List String) : Option String :=
  if shards.length < 3 then none
  else some (keccakModel (String.join shards))

/-- Number of Lighthouse node endpoints the service fans out to. -/
def lighthouseNodeCount : Nat := 5

/-- VerificationResult from zkTLSVerificationService.ts. -/
structure VerificationResult where
  isVerified : Bool
  agentData : Option AgentVerificationData
  error : Option String
  decryptionKey : Option String
deriving DecidableEq

/-- Error message of the structural-validation gate. -/
def msgInvalidProofStructure : String := "Invalid zkTLS proof structure"

/-- Error message when fewer than 3 nodes return a payload. -/
def msgInsufficientNodeVerifications : String := "Insufficient node verifications"

/-- Error message of the key-recovery step. -/
def msgKeyRecoveryFailed : String := "Failed to recover decryption key"

/-- Error message of the agent-data validation step. -/
def msgAgentDataValidationFailed : String := "Agent data validation failed"

/-- verifyAgentCreatorProof from zkTLSVerificationService.ts. nodeResp gives
the payload (or none) each of the 5 node verification calls returns; the
second component of the result is the number of node verification calls
dispatched. The structural gate runs before any node call; once it passes,
all 5 calls are issued. -/
def verifyAgentCreatorProof (nodeResp : Nat → Option String) (now : Nat)
    (cid creatorAddress : String) (proof : ZkTLSProof) :
    VerificationResult × Nat :=
  if validateZkTLSProof proof = false then
    ({ isVerified := false, agentData := none,
       error := some msgInvalidProofStructure, decryptionKey := none }, 0)
  else
    match ((List.range lighthouseNodeCount).map nodeResp).filterMap id with
    | successful =>
      if successful.length < 3 then
        ({ isVerified := false, agentData := none,
           error := some msgInsufficientNodeVerifications, decryptionKey := none },
         lighthouseNodeCount)
      else
        match recoverKey successful with
        | none =>
          ({ isVerified := false, agentData := none,
             error := some msgKeyRecoveryFailed, decryptionKey := none },
           lighthouseNodeCount)
        | some masterKey =>
          if validateAgentData (decryptAndParseAgentData cid masterKey now)
              creatorAddress = false then
            ({ isVerified := false, agentData := none,
               error := some msgAgentDataValidationFailed, decryptionKey := none },
             lighthouseNodeCount)
          else
            ({ isVerified := true,
               agentData := some (decryptAndParseAgentData cid masterKey now),
               error := none, decryptionKey := some masterKey },
             lighthouseNodeCount)

/- The zktls API route (src/app/api/zktls/route.ts). -/

/-- Error message for missing POST body fields. -/
def msgMissingFields : String :=
  "Missing required fields: creatorAddress, lighthouseHash, and zkTLSProof are required"

/-- Error message for an invalid address. -/
def msgInvalidAddress : String := "Invalid Ethereum address format"

/-- Error message for a malformed Lighthouse hash. -/
def msgInvalidHashFormat : String := "Invalid Lighthouse hash format"

/-- Error message of the already-verified guard. -/
def msgAlreadyVerifiedRoute : String := "Creator is already verified"

/-- Fallback error message when the service rejects without a reason. -/
def msgZkTLSFailed : String := "zkTLS verification failed"

/-- Error message of the GET route when no address is supplied. -/
def msgAddressRequired : String := "Address parameter is required"

/-- Outcome of the POST handler: HTTP status, success flag, error message,
and the number of node attestation calls the service dispatched. -/
structure PostResult where
  status : Nat
  success : Bool
  error : Option String
  attestationCalls : Nat
deriving DecidableEq

/-- POST of route.ts up to and including the zkTLS service verification.
isAddr models ethers.isAddress, addrOf the address decoding used for the
on-chain read, chain and bt the contract state and block time behind the
isCreatorVerified call, and tail the remaining pipeline (node-signature
generation and the on-chain verification transaction), which performs no
further attestation-client calls. -/
def postZkTLS (isAddr : String → Bool) (addrOf : String → Address)
    (chain : ContractState) (bt : Nat) (nodeResp : Nat → Option String)
    (now : Nat) (tail : AgentVerificationData → Nat × Bool × Option String)
    (creatorAddress lighthouseHash : String)
    (zkTLSProof : Option ZkTLSProof) : PostResult :=
  if creatorAddress = "" ∨ lighthouseHash = "" ∨ zkTLSProof = none then
    { status := 400, success := false, error := some msgMissingFields,
      attestationCalls := 0 }
  else if isAddr creatorAddress = false then
    { status := 400, success := false, error := some msgInvalidAddress,
      attestationCalls := 0 }
  else if strStartsWithModel lighthouseHash ("bafkrei") = false ∨
      lighthouseHash.length < 10 then
    { status := 400, success := false, error := some msgInvalidHashFormat,
      attestationCalls := 0 }
  else if isCreatorVerified chain bt (addrOf creatorAddress) = true then
    { status := 409, success := false, error := some msgAlreadyVerifiedRoute,
      attestationCalls := 0 }
  else
    match zkTLSProof with
    | none =>
      { status := 400, success := false, error := some msgMissingFields,
        attestationCalls := 0 }
    | some proof =>
      match verifyAgentCreatorProof nodeResp now lighthouseHash creatorAddress
        proof with
      | (vr, calls) =>
        if vr.isVerified = false ∨ vr.agentData = none then
          { status := 400, success := false,
            error := some (vr.error.getD msgZkTLSFailed),
            attestationCalls := calls }
        else
          match vr.agentData with
          | none =>
            { status := 400, success := false, error := some msgZkTLSFailed,
              attestationCalls := calls }
          | some ad =>
            match tail ad with
            | (st, ok, err) =>
              { status := st, success := ok, error := err,
                attestationCalls := calls }

/-- calculateTimeRemaining from route.ts: uses a hardcoded 30-day duration;
non-positive remainder yields the sentinel string, otherwise a days/hours,
hours, or minutes rendering. -/
def calculateTimeRemaining (verificationTime now : Nat) : String :=
  if verificationTime + 2592000 ≤ now then ("Expired")
  else if 0 < (verificationTime + 2592000 - now) / 86400 then
    toString ((verificationTime + 2592000 - now) / 86400) ++ "d " ++
      toString (((verificationTime + 2592000 - now) % 86400) / 3600) ++ "h"
  else if 0 < ((verificationTime + 2592000 - now) % 86400) / 3600 then
    toString (((verificationTime + 2592000 - now) % 86400) / 3600) ++ "h"
  else
    toString ((verificationTime + 2592000 - now) / 60) ++ "m"

/-- Response of the GET handler of route.ts. -/
inductive GetResponse where
  | error (status : Nat) (msg : String)
  | ok (isVerified : Bool) (verificationTime : Nat) (isExpired : Bool)
      (canCreateNFT : Bool) (timeRemaining : Option String)
deriving DecidableEq

/-- GET of route.ts: reads getCreatorVerificationStatus from the contract,
derives canCreateNFT, and attaches timeRemaining only when canCreateNFT
holds; otherwise the field is null. bt is the block time of the contract
read, now the server clock used by calculateTimeRemaining. -/
def getZkTLS (isAddr : String → Bool) (addrOf : String → Address)
    (chain : ContractState) (bt now : Nat) (address : Option String) :
    GetResponse :=
  match address with
  | none => GetResponse.error 400 msgAddressRequired
  | some addr =>
    if addr = "" then GetResponse.error 400 msgAddressRequired
    else if isAddr addr = false then GetResponse.error 400 msgInvalidAddress
    else
      GetResponse.ok
        (getCreatorVerificationStatus chain bt (addrOf addr)).isVerified
        (getCreatorVerificationStatus chain bt (addrOf addr)).verificationTime
        (getCreatorVerificationStatus chain bt (addrOf addr)).isExpired
        ((getCreatorVerificationStatus chain bt (addrOf addr)).isVerified &&
          !(getCreatorVerificationStatus chain bt (addrOf addr)).isExpired)
        (if ((getCreatorVerificationStatus chain bt (addrOf addr)).isVerified &&
            !(getCreatorVerificationStatus chain bt (addrOf addr)).isExpired) = true
         then some (calculateTimeRemaining
            (getCreatorVerificationStatus chain bt (addrOf addr)).verificationTime
            now)
         else none)

/-- The days/hours/minutes decomposition of a positive remaining duration, as
the spec describes timeRemaining. -/
def specTimeDecomposition (r : Nat) : String :=
  if 0 < r / 86400 then
    toString (r / 86400) ++ "d " ++ toString ((r % 86400) / 3600) ++ "h"
  else if 0 < (r % 86400) / 3600 then
    toString ((r % 86400) / 3600) ++ "h"
  else
    toString ((r % 3600) / 60) ++ "m"

/- Concrete instances used by witnesses and counterexamples. -/

/-- A concrete recovery oracle: the signature value is the recovered signer.
Under real ECDSA every trusted node can produce a signature recovering to
itself, so lists built from such signatures are possible submissions. -/
def exRecover : SignedMessage → Nat → Address := fun _ sig => sig

/-- A concrete VerificationData with timestamp 4000. -/
def exVd : VerificationData :=
  { lighthouseHash := "bafkreidataset"
    datasetSize := 5000
    trainingEpochs := 50
    accuracy := 9000
    timestamp := 4000
    dataHash := 77 }

/-- A concrete contract state: trusted nodes 10, 11, 12 and the default
threshold 3, as the constructor produces for those nodes. -/
def exState : ContractState :=
  { creatorVerifications := fun _ => emptyVerification
    trustedLighthouseNodes := fun a => a == 10 || a == 11 || a == 12
    usedVerificationHashes := fun _ => false
    trustedNodesList := [10, 11, 12]
    requiredNodeSignatures := 3
    verificationExpiryDuration := 2592000 }

/-- Three valid signatures from three distinct trusted nodes. -/
def exSigs3 : List NodeSignature :=
  [{ nodeAddress := 10, signature := 10 },
   { nodeAddress := 11, signature := 11 },
   { nodeAddress := 12, signature := 12 }]

/-- A verified ledger record: verified at time 1000 with the default 30-day
expiry. -/
def exVerifiedRecord : CreatorVerification :=
  { isVerified := true
    verificationTime := 1000
    lighthouseHash := "bafkreiabcd"
    data := exVd
    expiryDuration := 2592000 }

/-- A contract state whose creator 42 holds exVerifiedRecord. -/
def exChain : ContractState :=
  { creatorVerifications := fun a =>
      if a = 42 then exVerifiedRecord else emptyVerification
    trustedLighthouseNodes := fun _ => false
    usedVerificationHashes := fun _ => false
    trustedNodesList := []
    requiredNodeSignatures := 3
    verificationExpiryDuration := 2592000 }

/-- An address validator accepting everything. -/
def exIsAddr : String → Bool := fun _ => true

/-- Address decoding sending every string to 42. -/
def exAddrOf : String → Address := fun _ => 42

/-- A fully populated claimData. -/
def exClaimData : ClaimData :=
  { provider := "lighthouse"
    parameters := "p"
    owner := "0xowner"
    timestampS := 4000
    context := "c"
    contextAddress := "0xctx"
    contextMessage := "m"
    epoch := 1 }

/-- A single proof signature entry. -/
def exProofSig : ProofSignature := { signature := "0xsig", identifier := "0xid" }

/-- A single witness entry. -/
def exWitnessEntry : WitnessEntry := { id := "w1", url := "https://w1" }

/-- A structurally complete proof. -/
def exProofFull : ZkTLSProof :=
  { identifier := "0xid"
    claimData := some exClaimData
    signatures := some [exProofSig]
    witnesses := some [exWitnessEntry] }

/-- A proof whose witnesses sequence is present but empty. -/
def exProofEmptyWitnesses : ZkTLSProof :=
  { identifier := "0xid"
    claimData := some exClaimData
    signatures := some [exProofSig]
    witnesses := some [] }

/-- A proof whose signatures sequence is present but empty. -/
def exProofEmptySignatures : ZkTLSProof :=
  { identifier := "0xid"
    claimData := some exClaimData
    signatures := some []
    witnesses := some [exWitnessEntry] }

/-- A node oracle on which every verification call fails. -/
def exNodeResp : Nat → Option String := fun _ => none

/-- A tail oracle for the POST model. -/
def exTail : AgentVerificationData → Nat × Bool × Option String :=
  fun _ => (200, true, none)

/- Helper lemmas. -/

/-- When every submitted signature names a currently trusted node, the
signature loop does not revert and returns the count of signatures whose
recovered signer equals the claimed node address. -/
theorem countValidSignatures_all_trusted (s : ContractState)
    (recoverMsg : Nat → Address) (sigs : List NodeSignature)
    (htr : ∀ ns ∈ sigs, s.trustedLighthouseNodes ns.nodeAddress = true) :
    countValidSignatures s recoverMsg sigs =
      Except.ok ((sigs.filter (fun ns =>
        recoverMsg ns.signature == ns.nodeAddress)).length) := by
  induction sigs with
  | nil => rfl
  | cons ns rest ih =>
    have h1 : s.trustedLighthouseNodes ns.nodeAddress = true :=
      htr ns (List.mem_cons_self ns rest)
    have h2 : ∀ x ∈ rest, s.trustedLighthouseNodes x.nodeAddress = true :=
      fun x hx => htr x (List.mem_cons_of_mem ns hx)
    unfold countValidSignatures
    rw [ih h2]
    by_cases hc : recoverMsg ns.signature = ns.nodeAddress <;>
      simp [h1, hc, List.filter_cons]

/-- Under all structural, timestamp and replay gates, verifyCreatorWithZkTLS
reduces to the two quorum checks: the raw signature count and the valid
signature count against requiredNodeSignatures. -/
theorem verify_under_gates (recover : SignedMessage → Nat → Address)
    (s : ContractState) (sender : Address) (bt : Nat) (vd : VerificationData)
    (sigs : List NodeSignature)
    (htr : ∀ ns ∈ sigs, s.trustedLighthouseNodes ns.nodeAddress = true)
    (hhash : vd.lighthouseHash ≠ "") (hacc : vd.accuracy ≤ 10000)
    (hts0 : vd.timestamp ≠ 0) (htsf : vd.timestamp ≤ bt + 300)
    (hbt : 3600 ≤ bt) (htss : bt - 3600 ≤ vd.timestamp)
    (hfresh : s.usedVerificationHashes (sender, vd) = false) :
    verifyCreatorWithZkTLS recover s sender bt vd sigs =
      if sigs.length < s.requiredNodeSignatures then
        (Except.error msgInsufficientNodeSigs, s)
      else if validSignatureCount recover sender vd sigs <
          s.requiredNodeSignatures then
        (Except.error msgInsufficientValidSigs, s)
      else (Except.ok (), commitVerification s sender bt vd) := by
  unfold verifyCreatorWithZkTLS validSignatureCount
  rw [countValidSignatures_all_trusted s (recover (messageHash sender vd))
    sigs htr]
  by_cases hlen : sigs.length < s.requiredNodeSignatures
  · rw [if_pos hlen, if_pos hlen]
  · rw [if_neg hlen, if_neg hlen, if_neg hhash,
      if_neg (by omega : ¬ 10000 < vd.accuracy),
      if_neg hts0,
      if_neg (by omega : ¬ bt + 300 < vd.timestamp),
      if_neg (by omega : ¬ bt < 3600),
      if_neg (by omega : ¬ vd.timestamp < bt - 3600),
      if_neg (by simp [hfresh] :
        ¬ s.usedVerificationHashes (sender, vd) = true)]

/-- A successful verifyCreatorWithZkTLS implies every gate before the quorum
checks passed: the submission met the signature-count requirement, the data
passed the structural checks, the timestamp lay in the freshness window, and
the replay key was unconsumed. -/
theorem verify_ok_gates (recover : SignedMessage → Nat → Address)
    (s : ContractState) (sender : Address) (bt : Nat) (vd : VerificationData)
    (sigs : List NodeSignature)
    (h : (verifyCreatorWithZkTLS recover s sender bt vd sigs).1 =
      Except.ok ()) :
    s.requiredNodeSignatures ≤ sigs.length ∧ vd.lighthouseHash ≠ "" ∧
    vd.accuracy ≤ 10000 ∧ vd.timestamp ≠ 0 ∧ vd.timestamp ≤ bt + 300 ∧
    3600 ≤ bt ∧ bt - 3600 ≤ vd.timestamp ∧
    s.usedVerificationHashes (sender, vd) = false := by
  unfold verifyCreatorWithZkTLS at h
  iterate 8
    (split at h
     · exact absurd h (by simp))
  split at h
  · exact absurd h (by simp)
  split at h
  · exact absurd h (by simp)
  exact ⟨by omega, by assumption, by omega, by omega, by omega, by omega,
    by omega, by simp_all⟩

/-- verifyCreatorWithZkTLS either succeeds and returns exactly the committed
state, or reverts with some reason and returns the input state untouched. -/
theorem verify_result_cases (recover : SignedMessage → Nat → Address)
    (s : ContractState) (sender : Address) (bt : Nat) (vd : VerificationData)
    (sigs : List NodeSignature) :
    verifyCreatorWithZkTLS recover s sender bt vd sigs =
      (Except.ok (), commitVerification s sender bt vd) ∨
    ∃ e, verifyCreatorWithZkTLS recover s sender bt vd sigs =
      (Except.error e, s) := by
  unfold verifyCreatorWithZkTLS
  repeat' split
  all_goals first
    | exact Or.inl rfl
    | exact Or.inr ⟨_, rfl⟩

/-- A consumed replay key stays consumed across any further
verifyCreatorWithZkTLS call. -/
theorem verify_preserves_consumed (recover : SignedMessage → Nat → Address)
    (s : ContractState) (sender : Address) (bt : Nat) (vd : VerificationData)
    (sigs : List NodeSignature) (k : Address × VerificationData)
    (hk : s.usedVerificationHashes k = true) :
    (verifyCreatorWithZkTLS recover s sender bt vd sigs).2.usedVerificationHashes
      k = true := by
  rcases verify_result_cases recover s sender bt vd sigs with h | ⟨e, h⟩
  · rw [h]
    show (if k = (sender, vd) then true else s.usedVerificationHashes k) = true
    by_cases hkey : k = (sender, vd) <;> simp [hkey, hk]
  · rw [h]
    exact hk

/-- addTrustedNode never touches the replay-key set. -/
theorem addTrustedNode_preserves_consumed (s : ContractState) (node : Address)
    (s2 : ContractState) (h : addTrustedNode s node = Except.ok s2) :
    s2.usedVerificationHashes = s.usedVerificationHashes := by
  unfold addTrustedNode at h
  split at h
  · exact absurd h (by simp)
  split at h
  · exact absurd h (by simp)
  injection h with h
  rw [← h]

/-- removeTrustedNode never touches the replay-key set. -/
theorem removeTrustedNode_preserves_consumed (s : ContractState)
    (node : Address) (s2 : ContractState)
    (h : removeTrustedNode s node = Except.ok s2) :
    s2.usedVerificationHashes = s.usedVerificationHashes := by
  unfold removeTrustedNode at h
  split at h
  · exact absurd h (by simp)
  injection h with h
  rw [← h]

/-- setRequiredNodeSignatures never touches the replay-key set. -/
theorem setRequiredNodeSignatures_preserves_consumed (s : ContractState)
    (required : Nat) (s2 : ContractState)
    (h : setRequiredNodeSignatures s required = Except.ok s2) :
    s2.usedVerificationHashes = s.usedVerificationHashes := by
  unfold setRequiredNodeSignatures at h
  split at h
  · exact absurd h (by simp)
  injection h with h
  rw [← h]

/-- setVerificationExpiryDuration never touches the replay-key set. -/
theorem setVerificationExpiryDuration_preserves_consumed (s : ContractState)
    (duration : Nat) (s2 : ContractState)
    (h : setVerificationExpiryDuration s duration = Except.ok s2) :
    s2.usedVerificationHashes = s.usedVerificationHashes := by
  unfold setVerificationExpiryDuration at h
  split at h
  · exact absurd h (by simp)
  split at h
  · exact absurd h (by simp)
  injection h with h
  rw [← h]

/-- emergencyRemoveVerification never touches the replay-key set. -/
theorem emergencyRemoveVerification_preserves_consumed (s : ContractState)
    (creator : Address) :
    (emergencyRemoveVerification s creator).usedVerificationHashes =
      s.usedVerificationHashes := rfl

/-- calculateTimeRemaining returns the sentinel for a non-positive remainder
and the days/hours/minutes decomposition for a positive one. -/
theorem calculateTimeRemaining_spec (T now : Nat) :
    (T + 2592000 ≤ now → calculateTimeRemaining T now = "Expired") ∧
    (now < T + 2592000 →
      calculateTimeRemaining T now =
        specTimeDecomposition (T + 2592000 - now)) := by
  constructor
  · intro h
    unfold calculateTimeRemaining
    rw [if_pos h]
  · intro h
    unfold calculateTimeRemaining specTimeDecomposition
    rw [if_neg (by omega)]
    by_cases hd : 0 < (T + 2592000 - now) / 86400
    · rw [if_pos hd, if_pos hd]
    · rw [if_neg hd, if_neg hd]
      by_cases hh : 0 < ((T + 2592000 - now) % 86400) / 3600
      · rw [if_pos hh, if_pos hh]
      · rw [if_neg hh, if_neg hh]
        have heq : (T + 2592000 - now) / 60 =
            ((T + 2592000 - now) % 3600) / 60 := by omega
        rw [heq]

/- Claim theorems. -/

/-- C1: when every submitted signature names a currently trusted node, the
claimed node addresses are pairwise distinct, and the structural, timestamp
and replay gates pass, verifyCreatorWithZkTLS accepts exactly when the number
k of signatures whose recovered signer matches the claimed node address
reaches requiredNodeSignatures; below the threshold it reverts with one of
the two insufficient-signature reasons. -/
theorem quorum_threshold_iff (recover : SignedMessage → Nat → Address)
    (s : ContractState) (sender : Address) (bt : Nat) (vd : VerificationData)
    (sigs : List NodeSignature)
    (htr : ∀ ns ∈ sigs, s.trustedLighthouseNodes ns.nodeAddress = true)
    (_hnodup : (sigs.map NodeSignature.nodeAddress).Nodup)
    (hhash : vd.lighthouseHash ≠ "") (hacc : vd.accuracy ≤ 10000)
    (hts0 : vd.timestamp ≠ 0) (htsf : vd.timestamp ≤ bt + 300)
    (hbt : 3600 ≤ bt) (htss : bt - 3600 ≤ vd.timestamp)
    (hfresh : s.usedVerificationHashes (sender, vd) = false) :
    ((verifyCreatorWithZkTLS recover s sender bt vd sigs).1 = Except.ok () ↔
      s.requiredNodeSignatures ≤ validSignatureCount recover sender vd sigs) ∧
    (validSignatureCount recover sender vd sigs < s.requiredNodeSignatures →
      (verifyCreatorWithZkTLS recover s sender bt vd sigs).1 =
        Except.error msgInsufficientNodeSigs ∨
      (verifyCreatorWithZkTLS recover s sender bt vd sigs).1 =
        Except.error msgInsufficientValidSigs) := by
  have hred := verify_under_gates recover s sender bt vd sigs htr hhash hacc
    hts0 htsf hbt htss hfresh
  have hkle : validSignatureCount recover sender vd sigs ≤ sigs.length :=
    List.length_filter_le _ _
  rw [hred]
  by_cases hlen : sigs.length < s.requiredNodeSignatures
  · rw [if_pos hlen]
    refine ⟨⟨fun habs => absurd habs (by simp), fun hk => absurd hk (by omega)⟩,
      fun _ => Or.inl rfl⟩
  · rw [if_neg hlen]
    by_cases hq : validSignatureCount recover sender vd sigs <
        s.requiredNodeSignatures
    · rw [if_pos hq]
      refine ⟨⟨fun habs => absurd habs (by simp),
        fun hk => absurd hk (by omega)⟩, fun _ => Or.inr rfl⟩
    · rw [if_neg hq]
      exact ⟨⟨fun _ => by omega, fun _ => rfl⟩, fun hk => absurd hk hq⟩

/-- C1 witness: three valid signatures from the three trusted nodes of
exState meet the default threshold 3. -/
theorem quorum_threshold_iff_witness :
    ((verifyCreatorWithZkTLS exRecover exState 99 4000 exVd exSigs3).1 =
        Except.ok () ↔
      exState.requiredNodeSignatures ≤
        validSignatureCount exRecover 99 exVd exSigs3) ∧
    (validSignatureCount exRecover 99 exVd exSigs3 <
        exState.requiredNodeSignatures →
      (verifyCreatorWithZkTLS exRecover exState 99 4000 exVd exSigs3).1 =
        Except.error msgInsufficientNodeSigs ∨
      (verifyCreatorWithZkTLS exRecover exState 99 4000 exVd exSigs3).1 =
        Except.error msgInsufficientValidSigs) :=
  quorum_threshold_iff exRecover exState 99 4000 exVd exSigs3 (by decide)
    (by decide) (by decide) (by decide) (by decide) (by decide) (by decide)
    (by decide) (by decide)

/-- C2: the quorum loop counts duplicate signatures from the same trusted
node individually: two copies of the same valid signature from node 10 count
as 2, and three copies alone satisfy the default threshold 3, so the call is
accepted on the strength of a single distinct node. -/
theorem duplicate_signatures_each_count :
    countValidSignatures exState (exRecover (messageHash 99 exVd))
      [{ nodeAddress := 10, signature := 10 },
       { nodeAddress := 10, signature := 10 }] = Except.ok 2 ∧
    (verifyCreatorWithZkTLS exRecover exState 99 4000 exVd
      [{ nodeAddress := 10, signature := 10 },
       { nodeAddress := 10, signature := 10 },
       { nodeAddress := 10, signature := 10 }]).1 = Except.ok () :=
  ⟨rfl, rfl⟩

/-- C3: in the state the constructor produces for a single trusted node,
requiredNodeSignatures (3) exceeds the trusted-node count (1), yet
verifyCreatorWithZkTLS still accepts a submission of three duplicate valid
signatures from that one node: acceptance is not impossible. -/
theorem acceptance_possible_beyond_trusted_count :
    (deployAIAgentBatchNFT [10]).map (fun s0 =>
      decide (s0.trustedNodesList.length < s0.requiredNodeSignatures)) =
      some true ∧
    (deployAIAgentBatchNFT [10]).map (fun s0 =>
      (verifyCreatorWithZkTLS exRecover s0 99 4000 exVd
        [{ nodeAddress := 10, signature := 10 },
         { nodeAddress := 10, signature := 10 },
         { nodeAddress := 10, signature := 10 }]).1) =
      some (Except.ok ()) :=
  ⟨rfl, rfl⟩

/-- C4 counterexample: after a successful call consumes the replay key, a
later submission of the byte-identical tuple accompanied by an empty
signature list is rejected with the insufficient-signatures reason, not the
replay reason. -/
theorem replay_reason_counterexample :
    (verifyCreatorWithZkTLS exRecover exState 99 4000 exVd exSigs3).1 =
      Except.ok () ∧
    (verifyCreatorWithZkTLS exRecover exState 99 4000 exVd
      exSigs3).2.usedVerificationHashes (99, exVd) = true ∧
    (verifyCreatorWithZkTLS exRecover
      (verifyCreatorWithZkTLS exRecover exState 99 4000 exVd exSigs3).2
      99 4100 exVd []).1 = Except.error msgInsufficientNodeSigs ∧
    msgInsufficientNodeSigs ≠ msgAlreadyUsed :=
  ⟨rfl, rfl, rfl, by decide⟩

/-- C4 amended: a successful verifyCreatorWithZkTLS consumes the replay key
of (subject, data); from any state in which that key is consumed, no
submission of the byte-identical tuple by the same subject can succeed, and
whenever such a submission passes the gates that precede the replay check
(signature count and timestamp freshness) it is rejected with exactly the
already-used reason. -/
theorem replay_key_consumed_blocks_reuse
    (recover : SignedMessage → Nat → Address) (s : ContractState)
    (sender : Address) (bt : Nat) (vd : VerificationData)
    (sigs : List NodeSignature)
    (hok : (verifyCreatorWithZkTLS recover s sender bt vd sigs).1 =
      Except.ok ()) :
    (verifyCreatorWithZkTLS recover s sender bt vd
      sigs).2.usedVerificationHashes (sender, vd) = true ∧
    (∀ s2 : ContractState, s2.usedVerificationHashes (sender, vd) = true →
      ∀ (recover2 : SignedMessage → Nat → Address) (bt2 : Nat)
        (sigs2 : List NodeSignature),
        (verifyCreatorWithZkTLS recover2 s2 sender bt2 vd sigs2).1 ≠
          Except.ok () ∧
        (s2.requiredNodeSignatures ≤ sigs2.length →
         vd.timestamp ≤ bt2 + 300 → 3600 ≤ bt2 →
         bt2 - 3600 ≤ vd.timestamp →
         (verifyCreatorWithZkTLS recover2 s2 sender bt2 vd sigs2).1 =
           Except.error msgAlreadyUsed)) := by
  obtain ⟨hlen, hhash, hacc, hts0, htsf, hbt, htss, hfresh⟩ :=
    verify_ok_gates recover s sender bt vd sigs hok
  constructor
  · rcases verify_result_cases recover s sender bt vd sigs with h | ⟨e, h⟩
    · rw [h]
      simp [commitVerification]
    · rw [h] at hok
      exact absurd hok (by simp)
  · intro s2 hs2 recover2 bt2 sigs2
    constructor
    · intro habs
      have hg := (verify_ok_gates recover2 s2 sender bt2 vd sigs2
        habs).2.2.2.2.2.2.2
      rw [hs2] at hg
      exact absurd hg (by simp)
    · intro hl2 htf2 hb2 hst2
      unfold verifyCreatorWithZkTLS
      rw [if_neg (by omega), if_neg hhash, if_neg (by omega), if_neg hts0,
        if_neg (by omega), if_neg (by omega), if_neg (by omega),
        if_pos hs2]

/-- C4 amended witness: the concrete first call consumes the key, and a
byte-identical resubmission that passes the earlier gates is rejected with
the already-used reason. -/
theorem replay_key_consumed_blocks_reuse_witness :
    (verifyCreatorWithZkTLS exRecover exState 99 4000 exVd
      exSigs3).2.usedVerificationHashes (99, exVd) = true ∧
    (verifyCreatorWithZkTLS exRecover
      (verifyCreatorWithZkTLS exRecover exState 99 4000 exVd exSigs3).2
      99 4100 exVd exSigs3).1 = Except.error msgAlreadyUsed := by
  have h := replay_key_consumed_blocks_reuse exRecover exState 99 4000 exVd
    exSigs3 rfl
  exact ⟨h.1, (h.2 _ h.1 exRecover 4100 exSigs3).2 (by decide) (by decide)
    (by decide) (by decide)⟩

/-- C5: a record with isVerified true, verification time T and expiry
duration D is still verified and not expired at time T + D, and no longer
verified and expired at time T + D + 1. -/
theorem expiry_boundary (s : ContractState) (c : Address)
    (hv : (s.creatorVerifications c).isVerified = true) :
    isCreatorVerified s ((s.creatorVerifications c).verificationTime +
      (s.creatorVerifications c).expiryDuration) c = true ∧
    isCreatorVerified s ((s.creatorVerifications c).verificationTime +
      (s.creatorVerifications c).expiryDuration + 1) c = false ∧
    (getCreatorVerificationStatus s
      ((s.creatorVerifications c).verificationTime +
        (s.creatorVerifications c).expiryDuration) c).isExpired = false ∧
    (getCreatorVerificationStatus s
      ((s.creatorVerifications c).verificationTime +
        (s.creatorVerifications c).expiryDuration + 1) c).isExpired = true := by
  refine ⟨?_, ?_, ?_, ?_⟩
  all_goals simp [isCreatorVerified, getCreatorVerificationStatus, hv]

/-- C5 witness: the concrete record verified at 1000 with duration 2592000 is
verified at 2593000 and unverified at 2593001. -/
theorem expiry_boundary_witness :
    isCreatorVerified exChain 2593000 42 = true ∧
    isCreatorVerified exChain 2593001 42 = false ∧
    (getCreatorVerificationStatus exChain 2593000 42).isExpired = false ∧
    (getCreatorVerificationStatus exChain 2593001 42).isExpired = true := by
  have h := expiry_boundary exChain 42 rfl
  exact ⟨h.1, h.2.1, h.2.2.1, h.2.2.2⟩

/-- C6: a POST request that passes input validation but names a subject whose
on-chain record is verified and unexpired is rejected with status 409 and the
already-verified reason, with zero node attestation calls dispatched. -/
theorem already_verified_guard (isAddr : String → Bool)
    (addrOf : String → Address) (chain : ContractState) (bt : Nat)
    (nodeResp : Nat → Option String) (now : Nat)
    (tail : AgentVerificationData → Nat × Bool × Option String)
    (creatorAddress lighthouseHash : String) (proof : ZkTLSProof)
    (hca : creatorAddress ≠ "") (hlh : lighthouseHash ≠ "")
    (haddr : isAddr creatorAddress = true)
    (hfmt : strStartsWithModel lighthouseHash ("bafkrei") = true)
    (hlen : 10 ≤ lighthouseHash.length)
    (hver : isCreatorVerified chain bt (addrOf creatorAddress) = true) :
    postZkTLS isAddr addrOf chain bt nodeResp now tail creatorAddress
      lighthouseHash (some proof) =
      { status := 409, success := false,
        error := some msgAlreadyVerifiedRoute, attestationCalls := 0 } := by
  unfold postZkTLS
  rw [if_neg (by simp [hca, hlh]), if_neg (by simp [haddr]),
    if_neg (by simp [hfmt]; omega), if_pos hver]

/-- C6 witness: concrete already-verified subject, valid request shape. -/
theorem already_verified_guard_witness :
    postZkTLS exIsAddr exAddrOf exChain 2000 exNodeResp 0 exTail ("0xabc")
      ("bafkreiabcd") (some exProofFull) =
      { status := 409, success := false,
        error := some msgAlreadyVerifiedRoute, attestationCalls := 0 } :=
  already_verified_guard exIsAddr exAddrOf exChain 2000 exNodeResp 0 exTail
    ("0xabc") ("bafkreiabcd") exProofFull (by decide) (by decide) rfl
    (by decide) (by decide) rfl

/-- C7: a proof whose witnesses sequence is empty (or whose signatures
sequence is empty) passes validateZkTLSProof, because a present-but-empty
array is truthy in the source, and the service then dispatches all 5 node
verification calls instead of zero. -/
theorem empty_sequences_pass_validator :
    validateZkTLSProof exProofEmptyWitnesses = true ∧
    validateZkTLSProof exProofEmptySignatures = true ∧
    (verifyAgentCreatorProof exNodeResp 5000 ("bafkreiabcd") ("0xabc")
      exProofEmptyWitnesses).2 = 5 ∧
    (verifyAgentCreatorProof exNodeResp 5000 ("bafkreiabcd") ("0xabc")
      exProofEmptySignatures).2 = 5 ∧
    validateZkTLSProof { exProofFull with witnesses := none } = false ∧
    (verifyAgentCreatorProof exNodeResp 5000 ("bafkreiabcd") ("0xabc")
      { exProofFull with witnesses := none }).2 = 0 :=
  ⟨rfl, rfl, rfl, rfl, rfl, rfl⟩

/-- C8: a reverted verifyCreatorWithZkTLS leaves the state exactly as
received, consuming no replay key and writing no record; a successful call
returns precisely the committed state, in which the replay key is consumed
and the record stored together. -/
theorem rejection_atomicity (recover : SignedMessage → Nat → Address)
    (s : ContractState) (sender : Address) (bt : Nat) (vd : VerificationData)
    (sigs : List NodeSignature) :
    (∀ e, (verifyCreatorWithZkTLS recover s sender bt vd sigs).1 =
        Except.error e →
      (verifyCreatorWithZkTLS recover s sender bt vd sigs).2 = s) ∧
    ((verifyCreatorWithZkTLS recover s sender bt vd sigs).1 = Except.ok () →
      (verifyCreatorWithZkTLS recover s sender bt vd sigs).2 =
        commitVerification s sender bt vd ∧
      (verifyCreatorWithZkTLS recover s sender bt vd
        sigs).2.usedVerificationHashes (sender, vd) = true ∧
      (verifyCreatorWithZkTLS recover s sender bt vd
        sigs).2.creatorVerifications sender =
        { isVerified := true, verificationTime := bt,
          lighthouseHash := vd.lighthouseHash, data := vd,
          expiryDuration := s.verificationExpiryDuration }) := by
  rcases verify_result_cases recover s sender bt vd sigs with h | ⟨e, h⟩
  · constructor
    · intro e' he'
      rw [h] at he'
      exact absurd he' (by simp)
    · intro _
      rw [h]
      exact ⟨rfl, by simp [commitVerification], by simp [commitVerification]⟩
  · constructor
    · intro e' he'
      rw [h]
    · intro hok
      rw [h] at hok
      exact absurd hok (by simp)

/-- C8 witness: a concrete rejected call returns the state unchanged, and a
concrete successful call has the key consumed. -/
theorem rejection_atomicity_witness :
    (verifyCreatorWithZkTLS exRecover exState 99 4000 exVd []).2 = exState ∧
    (verifyCreatorWithZkTLS exRecover exState 99 4000 exVd
      exSigs3).2.usedVerificationHashes (99, exVd) = true := by
  have h1 := rejection_atomicity exRecover exState 99 4000 exVd []
  have h2 := rejection_atomicity exRecover exState 99 4000 exVd exSigs3
  exact ⟨h1.1 msgInsufficientNodeSigs rfl, (h2.2 rfl).2.1⟩

/-- C9 counterexample: a successful status read for a verified but expired
record (expiry minus now is negative) returns timeRemaining null, not an
expired-sentinel string. -/
theorem expired_timeRemaining_null :
    getZkTLS exIsAddr exAddrOf exChain 2593001 2593001 (some ("0xabc")) =
      GetResponse.ok true 1000 true false none ∧
    exVerifiedRecord.verificationTime + exVerifiedRecord.expiryDuration <
      2593001 :=
  ⟨rfl, by decide⟩

/-- C9 amended: a successful status read carries timeRemaining only when the
record is verified and unexpired (canCreateNFT); when present it is computed
by calculateTimeRemaining from a hardcoded 30-day duration, yielding the
sentinel string for a non-positive difference and the days/hours/minutes
decomposition for a positive one; otherwise timeRemaining is null. -/
theorem timeRemaining_characterization (isAddr : String → Bool)
    (addrOf : String → Address) (chain : ContractState) (bt now : Nat)
    (addr : String) (hne : addr ≠ "") (hvalid : isAddr addr = true) :
    (getZkTLS isAddr addrOf chain bt now (some addr) =
      GetResponse.ok
        (getCreatorVerificationStatus chain bt (addrOf addr)).isVerified
        (getCreatorVerificationStatus chain bt (addrOf addr)).verificationTime
        (getCreatorVerificationStatus chain bt (addrOf addr)).isExpired
        ((getCreatorVerificationStatus chain bt (addrOf addr)).isVerified &&
          !(getCreatorVerificationStatus chain bt (addrOf addr)).isExpired)
        (if ((getCreatorVerificationStatus chain bt (addrOf addr)).isVerified &&
             !(getCreatorVerificationStatus chain bt (addrOf addr)).isExpired) =
            true then
          some (calculateTimeRemaining
            (getCreatorVerificationStatus chain bt
              (addrOf addr)).verificationTime now)
         else none)) ∧
    (∀ T, T + 2592000 ≤ now → calculateTimeRemaining T now = "Expired") ∧
    (∀ T, now < T + 2592000 → calculateTimeRemaining T now =
      specTimeDecomposition (T + 2592000 - now)) := by
  refine ⟨?_, fun T h => (calculateTimeRemaining_spec T now).1 h,
    fun T h => (calculateTimeRemaining_spec T now).2 h⟩
  simp only [getZkTLS]
  rw [if_neg hne, if_neg (by simp [hvalid])]

/-- C9 amended witness: sentinel on a non-positive difference, literal field
equality on an active record. -/
theorem timeRemaining_characterization_witness :
    calculateTimeRemaining 1000 2593001 = "Expired" ∧
    getZkTLS exIsAddr exAddrOf exChain 2000 2000 (some ("0xabc")) =
      GetResponse.ok true 1000 false true
        (some (calculateTimeRemaining 1000 2000)) := by
  have h := timeRemaining_characterization exIsAddr exAddrOf exChain 2000 2000
    ("0xabc") (by decide) rfl
  have h2 := timeRemaining_characterization exIsAddr exAddrOf exChain 2593001
    2593001 ("0xabc") (by decide) rfl
  exact ⟨h2.2.1 1000 (by omega), h.1⟩

/-- C10: a submission whose claim timestamp is zero, more than 300 seconds
ahead of block time, or more than 3600 seconds behind block time is never
accepted by verifyCreatorWithZkTLS. -/
theorem timestamp_window_rejection (recover : SignedMessage → Nat → Address)
    (s : ContractState) (sender : Address) (bt : Nat) (vd : VerificationData)
    (sigs : List NodeSignature)
    (hbad : vd.timestamp = 0 ∨ bt + 300 < vd.timestamp ∨
      (vd.timestamp : Int) < (bt : Int) - 3600) :
    (verifyCreatorWithZkTLS recover s sender bt vd sigs).1 ≠ Except.ok () := by
  intro hok
  obtain ⟨-, -, -, hts0, htsf, hbt, htss, -⟩ :=
    verify_ok_gates recover s sender bt vd sigs hok
  rcases hbad with h | h | h
  · exact hts0 h
  · omega
  · omega

/-- C10 witness: a zero timestamp is rejected. -/
theorem timestamp_window_rejection_witness :
    (verifyCreatorWithZkTLS exRecover exState 99 4000
      { exVd with timestamp := 0 } exSigs3).1 ≠ Except.ok () :=
  timestamp_window_rejection exRecover exState 99 4000
    { exVd with timestamp := 0 } exSigs3 (Or.inl rfl)

end ProbableEureka
